import Mathlib

/-
Verification of the voice-translation pipeline in app.py.

The pipeline step functions (recognize_with_google, recognize_with_whisper,
translate_text, detect_language, tts_gtts_and_save, tts_pyttsx3_and_save,
process_single_file, the batch loop, live_loop and the live start handler)
are shallowly embedded below.  Every call into an external library
(speech_recognition, the translation backend, langdetect, gTTS, pyttsx3,
pydub, the microphone) is modelled by an explicit outcome value describing
whether the call returned normally or raised, so that the control flow of
each function can be translated statement by statement.  Statements that
sit outside any try block are modelled as propagating their exception:
recognize_with_google and hence process_single_file are Except-valued,
because the sr.AudioFile open and r.record at app.py lines 106-107 are
unguarded, and live_loop has an explicit outcome for the unguarded
microphone context entry and ambient-noise adjustment of lines 369-370.
Each function additionally reports which backends it invoked and which
warnings it emitted, mirroring the st.warning and st.error calls of the
source.
-/

/-- Outcome of one call into an external backend that either returns a
string or raises an exception with a message. -/
inductive BackendOutcome where
  | ok (s : String)
  | exn (msg : String)
  deriving DecidableEq, Repr

/-- Outcome of the r.recognize_google call inside recognize_with_google:
recognized text, sr.UnknownValueError, or any other exception. -/
inductive GoogleSttOutcome where
  | recognized (text : String)
  | unknownValue
  | exn (msg : String)
  deriving DecidableEq, Repr

/-- Outcome of a synthesis-engine or transcoding call that either writes its
output file and returns normally, or raises. -/
inductive TtsOutcome where
  | ok
  | exn (msg : String)
  deriving DecidableEq, Repr

/-- Outcome of opening the audio file with sr.AudioFile and recording it
(app.py lines 106-107).  These two statements sit outside the try block that
begins at line 108, so a failure here (for example a corrupt file, or a
container pydub cannot decode) raises out of recognize_with_google. -/
inductive AudioReadOutcome where
  | ok
  | exn (msg : String)
  deriving DecidableEq, Repr

/-- Embedding of recognize_with_google (app.py lines 104-115).  A failure of
the unguarded audio open/record at lines 106-107 propagates as an
exception (Except.error).  Otherwise recognized speech returns its text;
sr.UnknownValueError returns the empty string with no warning; any other
exception from the recognize call returns the empty string after emitting a
warning.  The ok payload is (text, warnings emitted). -/
def recognize_with_google (audio_read : AudioReadOutcome)
    (outcome : GoogleSttOutcome) : Except String (String × List String) :=
  match audio_read with
  | .exn e => .error e
  | .ok =>
      match outcome with
      | .recognized t => .ok (t, [])
      | .unknownValue => .ok ("", [])
      | .exn e => .ok ("", ["Google STT error: " ++ e])

/-- Embedding of recognize_with_whisper (app.py lines 118-128): if whisper is
not installed, warn and return the empty string; otherwise the model load
and transcribe calls sit entirely inside the try, so any failure is caught,
a warning is emitted and the empty string returned.  This function cannot
raise. -/
def recognize_with_whisper (has_whisper : Bool) (outcome : BackendOutcome) :
    String × List String :=
  if has_whisper = false then
    ("", ["Whisper not installed. Install whisper package to use local Whisper."])
  else
    match outcome with
    | .ok t => (t, [])
    | .exn e => ("", ["Whisper error: " ++ e])

/-- Embedding of translate_text (app.py lines 131-139).  The result triple is
(translated text, whether the GoogleTranslator backend was invoked, warnings).
Empty input returns immediately; otherwise the backend call either returns
the translation or raises, degrading to the empty string with a warning. -/
def translate_text (text target_lang : String) (backend : BackendOutcome) :
    String × Bool × List String :=
  if text = "" then ("", false, [])
  else
    match backend with
    | .ok s => (s, true, [])
    | .exn e => ("", true, ["Translation error: " ++ e])

/-- Embedding of detect_language (app.py lines 142-146): the langdetect call
either returns a language code or raises, in which case the function returns
None (modelled as none). -/
def detect_language (text : String) (backend : BackendOutcome) : Option String :=
  match backend with
  | .ok lang => some lang
  | .exn _ => none

/-- Embedding of tts_gtts_and_save (app.py lines 149-158).  The result triple
is (saved path or None, whether the gTTS backend was invoked, warnings).
Empty text returns None before touching the backend. -/
def tts_gtts_and_save (text lang out_path : String) (backend : TtsOutcome) :
    Option String × Bool × List String :=
  if text = "" then (none, false, [])
  else
    match backend with
    | .ok => (some out_path, true, [])
    | .exn e => (none, true, ["gTTS error: " ++ e])

/-- Embedding of tts_pyttsx3_and_save (app.py lines 161-173).  The result
triple is (saved path or None, whether the pyttsx3 engine was invoked,
warnings).  Note the source has no empty-text guard: when pyttsx3 is
installed the engine is initialised and save_to_file is called whatever the
text is. -/
def tts_pyttsx3_and_save (has_pyttsx3 : Bool) (text out_path : String)
    (backend : TtsOutcome) : Option String × Bool × List String :=
  if has_pyttsx3 = false then
    (none, false, ["pyttsx3 not installed. Install with pip install pyttsx3 to use offline TTS."])
  else
    match backend with
    | .ok => (some out_path, true, [])
    | .exn e => (none, true, ["pyttsx3 error: " ++ e])

/-- Embedding of the Python method str.startswith used by the STT and TTS
dispatches: true when p is a prefix of s. -/
def startswith (s p : String) : Bool := p.data.isPrefixOf s.data

/-- Recursion of string_replace on the character list, with explicit fuel so
the definition is structurally recursive; the fuel is instantiated with the
length of the subject list, which suffices for a nonempty pattern. -/
def replaceCharsFuel (pat rep : List Char) : Nat → List Char → List Char
  | 0, l => l
  | _ + 1, [] => []
  | fuel + 1, c :: rest =>
      if pat.isPrefixOf (c :: rest) then
        rep ++ replaceCharsFuel pat rep fuel ((c :: rest).drop pat.length)
      else c :: replaceCharsFuel pat rep fuel rest

/-- Embedding of the Python method str.replace as used at app.py line 272
with the nonempty pattern ".mp3": every occurrence of pat in s is replaced
by rep. -/
def string_replace (s pat rep : String) : String :=
  ⟨replaceCharsFuel pat.data rep.data s.data.length s.data⟩

/-- The per-item record returned by process_single_file.  The source returns
a Python dict; detected_lang and tts_file use Option (Option String) where
the outer none means the key is absent from the dict (the early-return dict
of line 257 has only error, source_text and translated keys). -/
structure SingleResult where
  error : Option String
  source_text : String
  translated : String
  detected_lang : Option (Option String)
  tts_file : Option (Option String)
  deriving DecidableEq, Repr, Inhabited

/-- Relevant global configuration read by process_single_file: the sidebar
STT backend string, the auto-detect checkbox, and which optional libraries
imported successfully. -/
structure AppConfig where
  stt_backend : String
  use_lang_detect : Bool
  has_whisper : Bool
  has_pyttsx3 : Bool
  deriving DecidableEq, Repr

/-- Outcomes of all external calls one run of process_single_file may make:
the unguarded audio-file open/record of the Google path, the chosen STT
backend call, langdetect, the translation backend, the chosen TTS engine,
and the pydub mp3 conversion of the pyttsx3 branch. -/
structure CallOutcomes where
  audio_read : AudioReadOutcome
  google : GoogleSttOutcome
  whisper : BackendOutcome
  detect : BackendOutcome
  translation : BackendOutcome
  tts : TtsOutcome
  convert : TtsOutcome
  deriving DecidableEq, Repr

/-- One run of process_single_file together with its observable effects:
which backends were invoked and which warnings were emitted. -/
structure PipelineTrace where
  result : SingleResult
  translation_invoked : Bool
  synthesis_invoked : Bool
  warnings : List String
  deriving DecidableEq, Repr, Inhabited

/-- The STT dispatch at the top of process_single_file (app.py lines
251-254): stt_backend.startswith("Google") selects the Google path, whose
unguarded audio read can raise; otherwise the Whisper path, which catches
all of its failures. -/
def pipeline_stt (cfg : AppConfig) (oc : CallOutcomes) :
    Except String (String × List String) :=
  if startswith cfg.stt_backend "Google" then
    recognize_with_google oc.audio_read oc.google
  else Except.ok (recognize_with_whisper cfg.has_whisper oc.whisper)

/-- Embedding of process_single_file (app.py lines 249-289).  An exception
raised by the Google path's audio read propagates out of the function
(there is no try anywhere in process_single_file).  Empty transcription
returns the three-key error dict of line 257 without invoking translation
or synthesis.  Otherwise: optional language detection, then translation,
then the chosen TTS engine; the pyttsx3 branch writes a wav and converts it
to mp3, keeping the wav path if the conversion raises (the bare except of
lines 280-281). -/
def process_single_file (cfg : AppConfig) (oc : CallOutcomes)
    (target_lang tts_engine_choice out_path : String) :
    Except String PipelineTrace :=
  match pipeline_stt cfg oc with
  | .error e => .error e
  | .ok stt =>
      if stt.1 = "" then
        .ok { result := { error := some "STT failed or empty", source_text := "",
                          translated := "", detected_lang := none, tts_file := none },
              translation_invoked := false, synthesis_invoked := false,
              warnings := stt.2 }
      else
        let src_text := stt.1
        let detected : Option String :=
          if cfg.use_lang_detect then detect_language src_text oc.detect else none
        let tr := translate_text src_text target_lang oc.translation
        let tts3 : Option String × Bool × List String :=
          if tts_engine_choice = "gTTS (online)" then
            tts_gtts_and_save tr.1 target_lang out_path oc.tts
          else
            let wav_path := string_replace out_path ".mp3" ".wav"
            let py := tts_pyttsx3_and_save cfg.has_pyttsx3 tr.1 wav_path oc.tts
            match py.1 with
            | some f =>
                (match oc.convert with
                 | .ok => (some out_path, py.2.1, py.2.2)
                 | .exn _ => (some f, py.2.1, py.2.2))
            | none => (none, py.2.1, py.2.2)
        .ok { result := { error := none, source_text := src_text,
                          translated := tr.1, detected_lang := some detected,
                          tts_file := some tts3.1 },
              translation_invoked := tr.2.1, synthesis_invoked := tts3.2.1,
              warnings := stt.2 ++ tr.2.2 ++ tts3.2.2 }

/-- Embedding of the batch loop of the Run Translation Pipeline handler
(app.py lines 327-331): a sequential for-loop appending
(audio_path, process_single_file ...) for each input.  The loop body has no
try, so an exception propagating out of process_single_file aborts the loop
and the whole handler (the display code at line 333 never runs): the result
is the list of records appended before the abort, paired with the
propagated exception message if one occurred.  Each input carries its path,
the outcomes of its external calls, and its timestamp-derived output
path. -/
def run_batch (cfg : AppConfig) (target_lang tts_engine_choice : String) :
    List (String × CallOutcomes × String) →
    List (String × PipelineTrace) × Option String
  | [] => ([], none)
  | item :: rest =>
      match process_single_file cfg item.2.1 target_lang tts_engine_choice
          item.2.2 with
      | .error e => ([], some e)
      | .ok tr =>
          let r := run_batch cfg target_lang tts_engine_choice rest
          ((item.1, tr) :: r.1, r.2)

/-- What one iteration of the live-loop body did (app.py lines 372-420): it
either ran to the end of the try block, emitting some warnings and sleeping
for the recorded durations along the way, or raised an exception that
reaches the except handler of line 418. -/
inductive CycleBody where
  | completed (ws : List String) (sl : List Nat)
  | raised (msg : String)
  deriving DecidableEq, Repr

/-- Observable state of one live_loop instance: the shared run flag, the
st.error reports, the st.warning reports, the sleep durations performed,
and how many cycle bodies were entered. -/
structure LiveState where
  run : Bool
  errors : List String
  warnings : List String
  sleeps : List Nat
  cycles : Nat
  deriving DecidableEq, Repr

/-- One turn of the while-loop of app.py lines 371-420: the run flag is
read at the top; if it is set the body executes, and an exception inside
the body is caught by the except of line 418, which warns and sleeps one
second; the flag is never modified inside the loop. -/
def live_step (st : LiveState) (body : CycleBody) : LiveState :=
  if st.run then
    match body with
    | .completed ws sl =>
        { st with
          cycles := st.cycles + 1
          warnings := st.warnings ++ ws
          sleeps := st.sleeps ++ sl }
    | .raised e =>
        { st with
          cycles := st.cycles + 1
          warnings := st.warnings ++ ["Live loop error: " ++ e]
          sleeps := st.sleeps ++ [1] }
  else st

/-- Outcome of the sr.Microphone() constructor call at app.py line 363, the
only statement of live_loop guarded by the try of lines 362-367. -/
inductive MicOutcome where
  | ok
  | exn (msg : String)
  deriving DecidableEq, Repr

/-- Outcome of entering the microphone context manager and adjusting for
ambient noise (app.py lines 369-370).  These statements sit outside both
the constructor try (362-367) and the per-cycle try (372), so a failure
here — for example the audio stream failing to open — propagates and kills
the loop thread with no report and the shared flag untouched. -/
inductive SetupOutcome where
  | ok
  | exn (msg : String)
  deriving DecidableEq, Repr

/-- Embedding of live_loop (app.py lines 359-420).  If the sr.Microphone()
constructor raises, the except of lines 364-367 reports an error, clears
the shared run flag and returns before any cycle runs.  If instead the
context entry or ambient-noise adjustment of lines 369-370 raises, the
exception is uncaught: the thread dies with zero cycles run, no report, and
the shared flag left at the value it had on entry.  Otherwise the
while-loop runs over the supplied cycle bodies, starting from the value the
shared run flag had on entry. -/
def live_loop (flag0 : Bool) (mic : MicOutcome) (setup : SetupOutcome)
    (bodies : List CycleBody) : LiveState :=
  match mic with
  | .exn e =>
      { run := false, errors := ["Microphone not available: " ++ e],
        warnings := [], sleeps := [], cycles := 0 }
  | .ok =>
      match setup with
      | .exn _ =>
          { run := flag0, errors := [], warnings := [], sleeps := [], cycles := 0 }
      | .ok =>
          bodies.foldl live_step
            { run := flag0, errors := [], warnings := [], sleeps := [], cycles := 0 }

/-- Embedding of one Streamlit rerun of the live-control script section
(app.py lines 356-433).  Streamlit re-executes the whole script on every
widget interaction, so line 357 re-creates the module-level dict
_live_flag with run False on every rerun; already-started live_loop
threads persist across reruns (each holding the flag dict of the rerun
that started it).  The Start handler (lines 426-429) therefore reads a
freshly reset flag, and the Stop handler (lines 431-433) mutates this
rerun's dict.  The argument is the number of loop threads started so far;
the result is the updated thread count and the final run value of this
rerun's flag dict. -/
def script_rerun (threads : Nat) (start_clicked stop_clicked : Bool) :
    Nat × Bool :=
  let flag0 : Bool := false
  let after_start : Nat × Bool :=
    if start_clicked && !flag0 then (threads + 1, true) else (threads, flag0)
  let flag1 : Bool :=
    if stop_clicked && after_start.2 then false else after_start.2
  (after_start.1, flag1)

/-- Helper: when the transcription step returns (rather than raises) with
empty text, process_single_file takes the early return of app.py line 257:
the three-key error record, no translation call, no synthesis call, only
the STT warnings. -/
theorem process_single_file_of_empty_stt (cfg : AppConfig) (oc : CallOutcomes)
    (target_lang tts_engine_choice out_path : String) (s : String × List String)
    (h : pipeline_stt cfg oc = Except.ok s) (hs : s.1 = "") :
    process_single_file cfg oc target_lang tts_engine_choice out_path =
      Except.ok
        { result := { error := some "STT failed or empty", source_text := "",
                      translated := "", detected_lang := none, tts_file := none },
          translation_invoked := false, synthesis_invoked := false,
          warnings := s.2 } := by
  unfold process_single_file
  rw [h]
  simp [hs]

/-- Helper: when the transcription step returns non-empty text,
process_single_file returns a record whose error field is none. -/
theorem process_single_file_of_nonempty_stt (cfg : AppConfig) (oc : CallOutcomes)
    (target_lang tts_engine_choice out_path : String) (s : String × List String)
    (h : pipeline_stt cfg oc = Except.ok s) (hs : s.1 ≠ "") :
    ∃ tr : PipelineTrace,
      process_single_file cfg oc target_lang tts_engine_choice out_path =
        Except.ok tr ∧ tr.result.error = none := by
  unfold process_single_file
  rw [h]
  simp [hs]

/-- Helper: when every item of the batch processes without an uncaught
exception, run_batch is the order-preserving map of process_single_file
over the inputs and no exception is propagated. -/
theorem run_batch_all_ok (cfg : AppConfig) (target_lang tts_engine_choice : String)
    (inputs : List (String × CallOutcomes × String))
    (h : ∀ item ∈ inputs,
      (process_single_file cfg item.2.1 target_lang tts_engine_choice
        item.2.2).isOk = true) :
    run_batch cfg target_lang tts_engine_choice inputs =
      (inputs.map (fun item =>
        (item.1, (process_single_file cfg item.2.1 target_lang tts_engine_choice
          item.2.2).toOption.getD default)), none) := by
  induction inputs with
  | nil => rfl
  | cons head rest ih =>
      have hh := h head (List.mem_cons_self head rest)
      cases hp : process_single_file cfg head.2.1 target_lang tts_engine_choice
          head.2.2 with
      | error e => rw [hp] at hh; simp [Except.isOk, Except.toBool] at hh
      | ok tr =>
          have ih2 := ih (fun item hm => h item (List.mem_cons_of_mem head hm))
          simp [run_batch, hp, ih2, Except.toOption]

/-- Fixture: the default sidebar configuration with the Google STT backend
selected. -/
def cfgGoogle : AppConfig :=
  { stt_backend := "Google Web Speech (online)", use_lang_detect := true,
    has_whisper := false, has_pyttsx3 := true }

/-- Fixture: external-call outcomes for a readable but silent input, whose
Google STT call raises sr.UnknownValueError and so transcribes to the empty
string. -/
def ocSilence : CallOutcomes :=
  { audio_read := AudioReadOutcome.ok, google := GoogleSttOutcome.unknownValue,
    whisper := BackendOutcome.ok "", detect := BackendOutcome.ok "en",
    translation := BackendOutcome.ok "hola", tts := TtsOutcome.ok,
    convert := TtsOutcome.ok }

/-- Fixture: external-call outcomes for an input that transcribes to a
non-empty phrase and whose downstream backends all succeed. -/
def ocHello : CallOutcomes :=
  { audio_read := AudioReadOutcome.ok,
    google := GoogleSttOutcome.recognized "hello",
    whisper := BackendOutcome.ok "hello", detect := BackendOutcome.ok "en",
    translation := BackendOutcome.ok "hola", tts := TtsOutcome.ok,
    convert := TtsOutcome.ok }

/-- Fixture: external-call outcomes for an input whose audio file cannot be
read, so the unguarded sr.AudioFile open at app.py line 106 raises. -/
def ocBadRead : CallOutcomes :=
  { audio_read := AudioReadOutcome.exn "cannot read audio file",
    google := GoogleSttOutcome.recognized "hello",
    whisper := BackendOutcome.ok "hello", detect := BackendOutcome.ok "en",
    translation := BackendOutcome.ok "hola", tts := TtsOutcome.ok,
    convert := TtsOutcome.ok }

/-- Fixture: a two-item batch whose first item transcribes to empty text and
whose second item processes normally. -/
def batchInputs : List (String × CallOutcomes × String) :=
  [("a.wav", ocSilence, "out1.mp3"), ("b.wav", ocHello, "out2.mp3")]

/-- Fixture: a live-loop state whose run flag is set, as after a successful
start. -/
def liveRunning : LiveState :=
  { run := true, errors := [], warnings := [], sleeps := [], cycles := 0 }

/-- Claim C1 is false on the code: for an audio input whose transcription
yields empty text, process_single_file returns the record of app.py line 257
whose error field is the string STT failed or empty, not None. -/
theorem claim_C1_counterexample :
    pipeline_stt cfgGoogle ocSilence = Except.ok ("", []) ∧
    (process_single_file cfgGoogle ocSilence "es" "gTTS (online)"
        "out.mp3").toOption.map (fun t => t.result.error) =
      some (some "STT failed or empty") ∧
    (some "STT failed or empty" : Option String) ≠ none :=
  ⟨rfl, rfl, by decide⟩

/-- Claim C1 amended: for every audio input whose transcription step returns
empty text, process_single_file returns the record with error set to the
marker STT failed or empty (not None), source_text and translated both
empty, and neither the translation backend nor the synthesis backend is
invoked. -/
theorem claim_C1_amended (cfg : AppConfig) (oc : CallOutcomes)
    (target_lang tts_engine_choice out_path : String) (s : String × List String)
    (h : pipeline_stt cfg oc = Except.ok s) (hs : s.1 = "") :
    process_single_file cfg oc target_lang tts_engine_choice out_path =
      Except.ok
        { result := { error := some "STT failed or empty", source_text := "",
                      translated := "", detected_lang := none, tts_file := none },
          translation_invoked := false, synthesis_invoked := false,
          warnings := s.2 } :=
  process_single_file_of_empty_stt cfg oc target_lang tts_engine_choice out_path s h hs

/-- Witness for the amended claim C1 at the silent-input fixture. -/
theorem claim_C1_amended_witness :
    process_single_file cfgGoogle ocSilence "es" "gTTS (online)" "out.mp3" =
      Except.ok
        { result := { error := some "STT failed or empty", source_text := "",
                      translated := "", detected_lang := none, tts_file := none },
          translation_invoked := false, synthesis_invoked := false,
          warnings := [] } :=
  claim_C1_amended cfgGoogle ocSilence "es" "gTTS (online)" "out.mp3" ("", []) rfl rfl

/-- Claim C2 is false on the code: tts_pyttsx3_and_save has no empty-text
guard, so with pyttsx3 installed and empty input text the engine is invoked
and an artifact path is returned instead of None. -/
theorem claim_C2_counterexample :
    (tts_pyttsx3_and_save true "" "out.wav" TtsOutcome.ok).1 = some "out.wav" ∧
    (tts_pyttsx3_and_save true "" "out.wav" TtsOutcome.ok).2.1 = true := by
  decide

/-- Claim C2 amended: for the gTTS backend, empty input text returns None
immediately with no backend invocation and no warning; the pyttsx3 backend
does not short-circuit on empty text and invokes the engine whenever
pyttsx3 is installed, whatever the outcome of the engine call. -/
theorem claim_C2_amended (lang out_path out_path2 : String)
    (oc oc2 : TtsOutcome) :
    tts_gtts_and_save "" lang out_path oc = (none, false, []) ∧
    (tts_pyttsx3_and_save true "" out_path2 oc2).2.1 = true := by
  refine ⟨rfl, ?_⟩
  cases oc2 <;> rfl

/-- Claim C3: translate_text with empty input text returns the empty string
without invoking the translation backend and without emitting warnings,
whatever the backend outcome would have been. -/
theorem claim_C3_translate_empty (target_lang : String) (backend : BackendOutcome) :
    translate_text "" target_lang backend = ("", false, []) := rfl

/-- Claim C4 is false on the code: when the langdetect call raises,
detect_language returns None (modelled as none), not the sentinel string
unknown. -/
theorem claim_C4_counterexample :
    detect_language "hello world" (BackendOutcome.exn "LangDetectException") = none ∧
    (none : Option String) ≠ some "unknown" := by
  decide

/-- Claim C4 amended: for every text input, if the language-detection
backend raises then detect_language returns None (not the string unknown)
and never propagates the exception to its caller. -/
theorem claim_C4_amended (text e : String) :
    detect_language text (BackendOutcome.exn e) = none := rfl

/-- Claim C5 is false on the code: the sr.AudioFile open and r.record at
app.py lines 106-107 sit outside the try block, so an unreadable audio file
makes recognize_with_google raise instead of returning an empty-text
result, aborting the pipeline. -/
theorem claim_C5_counterexample :
    recognize_with_google (AudioReadOutcome.exn "cannot read audio file")
        (GoogleSttOutcome.recognized "hello") =
      Except.error "cannot read audio file" := rfl

/-- Claim C5 amended: once the audio file has been opened and recorded
successfully, the Google backend returns rather than raises for every
recognize outcome — recognized text verbatim, unrecognized speech as empty
text with no warning, any other recognize failure as empty text with a
warning; the Whisper backend never raises at all (missing model and
transcription failures both yield empty text with a warning).  But a
failure of the unguarded audio open/record in the Google path propagates as
an exception, so transcription can abort the pipeline. -/
theorem claim_C5_amended (t e : String) :
    recognize_with_google AudioReadOutcome.ok (GoogleSttOutcome.recognized t) =
      Except.ok (t, []) ∧
    recognize_with_google AudioReadOutcome.ok GoogleSttOutcome.unknownValue =
      Except.ok ("", []) ∧
    recognize_with_google AudioReadOutcome.ok (GoogleSttOutcome.exn e) =
      Except.ok ("", ["Google STT error: " ++ e]) ∧
    (∀ g : GoogleSttOutcome,
      recognize_with_google (AudioReadOutcome.exn e) g = Except.error e) ∧
    (∀ oc : BackendOutcome, recognize_with_whisper false oc =
      ("", ["Whisper not installed. Install whisper package to use local Whisper."])) ∧
    recognize_with_whisper true (BackendOutcome.ok t) = (t, []) ∧
    recognize_with_whisper true (BackendOutcome.exn e) =
      ("", ["Whisper error: " ++ e]) := by
  exact ⟨rfl, rfl, rfl, fun g => rfl, fun oc => rfl, rfl, rfl⟩

/-- Claim C6 is false on the code: the batch loop has no try, so an
uncaught audio-read exception on the first item aborts the whole handler —
the result list is empty rather than of length 2, the error is not captured
in the item's record, and the second item is never processed. -/
theorem claim_C6_counterexample :
    run_batch cfgGoogle "es" "gTTS (online)"
        [("bad.mp3", ocBadRead, "out1.mp3"), ("b.wav", ocHello, "out2.mp3")] =
      ([], some "cannot read audio file") ∧
    ([] : List (String × PipelineTrace)).length ≠
      [("bad.mp3", ocBadRead, "out1.mp3"), ("b.wav", ocHello, "out2.mp3")].length :=
  ⟨rfl, by decide⟩

/-- Claim C6 amended: provided no item raises an uncaught exception (every
process_single_file call returns), the batch result list has length N in
input order, the k-th record is exactly the processing of the k-th input —
so an item whose transcription step returns empty text carries its own
error marker without affecting any other item; an uncaught audio-read
exception on item k, however, aborts the run with items k+1..N
unprocessed. -/
theorem claim_C6_amended (cfg : AppConfig) (target_lang tts_engine_choice : String)
    (inputs : List (String × CallOutcomes × String))
    (h : ∀ item ∈ inputs,
      (process_single_file cfg item.2.1 target_lang tts_engine_choice
        item.2.2).isOk = true) :
    (run_batch cfg target_lang tts_engine_choice inputs).2 = none ∧
    (run_batch cfg target_lang tts_engine_choice inputs).1.length = inputs.length ∧
    (∀ (k : Nat) (item : String × CallOutcomes × String) (tr : PipelineTrace),
      inputs[k]? = some item →
      process_single_file cfg item.2.1 target_lang tts_engine_choice item.2.2 =
        Except.ok tr →
      ((run_batch cfg target_lang tts_engine_choice inputs).1)[k]? =
        some (item.1, tr)) ∧
    (∀ (k : Nat) (item : String × CallOutcomes × String) (s : String × List String),
      inputs[k]? = some item →
      pipeline_stt cfg item.2.1 = Except.ok s → s.1 = "" →
      (((run_batch cfg target_lang tts_engine_choice inputs).1)[k]?).map
          (fun r => r.2.result.error) = some (some "STT failed or empty")) := by
  have hrb := run_batch_all_ok cfg target_lang tts_engine_choice inputs h
  refine ⟨by rw [hrb], by rw [hrb]; simp, ?_, ?_⟩
  · intro k item tr hk hp
    rw [hrb]
    simp only [List.getElem?_map, hk, Option.map_some']
    rw [hp]
    simp [Except.toOption]
  · intro k item s hk hstt hs
    have hp := process_single_file_of_empty_stt cfg item.2.1 target_lang
      tts_engine_choice item.2.2 s hstt hs
    rw [hrb]
    simp only [List.getElem?_map, hk, Option.map_some']
    rw [hp]
    simp [Except.toOption]

/-- Witness for the amended claim C6 on the two-item fixture: no abort, two
results come back, and item 0 carries the error marker. -/
theorem claim_C6_amended_witness :
    (run_batch cfgGoogle "es" "gTTS (online)" batchInputs).2 = none ∧
    (run_batch cfgGoogle "es" "gTTS (online)" batchInputs).1.length =
      batchInputs.length ∧
    ((run_batch cfgGoogle "es" "gTTS (online)" batchInputs).1)[0]?.map
        (fun r => r.2.result.error) = some (some "STT failed or empty") := by
  have h6 := claim_C6_amended cfgGoogle "es" "gTTS (online)" batchInputs (by decide)
  exact ⟨h6.1, h6.2.1,
    h6.2.2.2 0 ("a.wav", ocSilence, "out1.mp3") ("", []) rfl rfl rfl⟩

/-- Claim C7: with the run flag set, a cycle whose body raises is caught by
the except handler: the warning is recorded, a 1-second sleep follows, the
run flag is still true, and the loop proceeds to enter the next cycle body
(the cycle counter advances again on the following turn). -/
theorem claim_C7_cycle_exception_continues (st : LiveState) (e : String)
    (b : CycleBody) (h : st.run = true) :
    (live_step st (CycleBody.raised e)).run = true ∧
    (live_step st (CycleBody.raised e)).warnings =
      st.warnings ++ ["Live loop error: " ++ e] ∧
    (live_step st (CycleBody.raised e)).sleeps = st.sleeps ++ [1] ∧
    (live_step st (CycleBody.raised e)).cycles = st.cycles + 1 ∧
    (live_step (live_step st (CycleBody.raised e)) b).cycles = st.cycles + 2 := by
  refine ⟨by simp [live_step, h], by simp [live_step, h], by simp [live_step, h],
    by simp [live_step, h], ?_⟩
  cases b <;> simp [live_step, h]

/-- Witness for claim C7 at a concrete running state and a raising body. -/
theorem claim_C7_witness :
    (live_step liveRunning (CycleBody.raised "boom")).run = true ∧
    (live_step liveRunning (CycleBody.raised "boom")).warnings =
      liveRunning.warnings ++ ["Live loop error: " ++ "boom"] ∧
    (live_step liveRunning (CycleBody.raised "boom")).sleeps =
      liveRunning.sleeps ++ [1] ∧
    (live_step liveRunning (CycleBody.raised "boom")).cycles =
      liveRunning.cycles + 1 ∧
    (live_step (live_step liveRunning (CycleBody.raised "boom"))
      (CycleBody.completed [] [])).cycles = liveRunning.cycles + 2 :=
  claim_C7_cycle_exception_continues liveRunning "boom" (CycleBody.completed [] []) rfl

/-- Claim C8 evaluated at its failing input, over the rerun-faithful model
of the live controls: each Streamlit rerun re-creates _live_flag with run
False (app.py line 357), so the guard of line 426 never sees a set flag —
after two Start clicks without a Stop, two live_loop threads have been
started, and in general every Start click increments the started-thread
count.  This contradicts the claim, whose guarded start was clearly
intended to make a second start a no-op. -/
theorem claim_C8_code_bug :
    (script_rerun (script_rerun 0 true false).1 true false).1 = 2 ∧
    (∀ threads : Nat, (script_rerun threads true false).1 = threads + 1) :=
  ⟨rfl, fun _ => rfl⟩

/-- Claim C9 is false on the code: a device failure while entering the
microphone context or adjusting for ambient noise (app.py lines 369-370) is
uncaught — the loop thread dies with zero cycles run, no error report, and
the run flag left true, instead of reporting and clearing the flag. -/
theorem claim_C9_counterexample :
    (live_loop true MicOutcome.ok (SetupOutcome.exn "could not open audio stream")
        [CycleBody.completed [] []]).run = true ∧
    (live_loop true MicOutcome.ok (SetupOutcome.exn "could not open audio stream")
        [CycleBody.completed [] []]).errors = [] ∧
    (live_loop true MicOutcome.ok (SetupOutcome.exn "could not open audio stream")
        [CycleBody.completed [] []]).cycles = 0 :=
  ⟨rfl, rfl, rfl⟩

/-- Claim C9 amended: if the sr.Microphone() constructor raises at live-loop
start, the session reports an error, clears the run flag and returns without
executing any pipeline cycle; but if the microphone context entry or the
ambient-noise adjustment of lines 369-370 raises, the exception propagates
and the loop thread dies with zero cycles, no report and the run flag left
unchanged; exceptions inside cycle bodies are never fatal (the flag stays
set). -/
theorem claim_C9_amended (flag0 : Bool) (e : String) (setup : SetupOutcome)
    (bodies : List CycleBody) :
    live_loop flag0 (MicOutcome.exn e) setup bodies =
      { run := false, errors := ["Microphone not available: " ++ e],
        warnings := [], sleeps := [], cycles := 0 } ∧
    live_loop flag0 MicOutcome.ok (SetupOutcome.exn e) bodies =
      { run := flag0, errors := [], warnings := [], sleeps := [], cycles := 0 } ∧
    (∀ (st : LiveState) (msg : String), st.run = true →
      (live_step st (CycleBody.raised msg)).run = true) := by
  refine ⟨rfl, rfl, ?_⟩
  intro st msg h
  simp [live_step, h]

/-- Witness for the amended claim C9 at a concrete constructor failure and a
concrete running state. -/
theorem claim_C9_witness :
    live_loop true (MicOutcome.exn "no device") SetupOutcome.ok
        [CycleBody.completed [] []] =
      { run := false, errors := ["Microphone not available: " ++ "no device"],
        warnings := [], sleeps := [], cycles := 0 } ∧
    (live_step liveRunning (CycleBody.raised "boom")).run = true := by
  have h9 := claim_C9_amended true "no device" SetupOutcome.ok
    [CycleBody.completed [] []]
  exact ⟨h9.1, h9.2.2 liveRunning "boom" rfl⟩

/-- Claim C10: whenever the transcription step returns (rather than raises),
the record returned by process_single_file has a non-None error field
exactly when the transcription came back empty, and in that case it is the
three-key record of app.py line 257, with the detected_lang and tts_file
keys absent. -/
theorem claim_C10_error_iff_empty_stt (cfg : AppConfig) (oc : CallOutcomes)
    (target_lang tts_engine_choice out_path : String) (s : String × List String)
    (h : pipeline_stt cfg oc = Except.ok s) :
    (∀ tr : PipelineTrace,
      process_single_file cfg oc target_lang tts_engine_choice out_path =
        Except.ok tr →
      (tr.result.error ≠ none ↔ s.1 = "")) ∧
    (s.1 = "" →
      process_single_file cfg oc target_lang tts_engine_choice out_path =
        Except.ok
          { result := { error := some "STT failed or empty", source_text := "",
                        translated := "", detected_lang := none, tts_file := none },
            translation_invoked := false, synthesis_invoked := false,
            warnings := s.2 }) := by
  by_cases hs : s.1 = ""
  · have hp := process_single_file_of_empty_stt cfg oc target_lang
      tts_engine_choice out_path s h hs
    refine ⟨?_, fun _ => hp⟩
    intro tr htr
    rw [hp] at htr
    injection htr with h2
    subst h2
    simp [hs]
  · refine ⟨?_, fun h2 => absurd h2 hs⟩
    intro tr htr
    obtain ⟨tr2, hp2, herr⟩ := process_single_file_of_nonempty_stt cfg oc
      target_lang tts_engine_choice out_path s h hs
    rw [hp2] at htr
    injection htr with h2
    subst h2
    simp [herr, hs]

/-- Witness for claim C10 at the silent-input fixture: the iff holds with
both sides true, and the returned record is the three-key error record. -/
theorem claim_C10_witness :
    ((some "STT failed or empty" : Option String) ≠ none ↔ ("" : String) = "") ∧
    process_single_file cfgGoogle ocSilence "es" "gTTS (online)" "out.mp3" =
      Except.ok
        { result := { error := some "STT failed or empty", source_text := "",
                      translated := "", detected_lang := none, tts_file := none },
          translation_invoked := false, synthesis_invoked := false,
          warnings := [] } := by
  have h10 := claim_C10_error_iff_empty_stt cfgGoogle ocSilence "es"
    "gTTS (online)" "out.mp3" ("", []) rfl
  exact ⟨h10.1 _ (h10.2 rfl), h10.2 rfl⟩
